import Mathlib

/-!
Verification of the Flatland range-sensor simulation core.

The definitions below are a shallow embedding of the Python sources
(`geom_utils.py`, `sensor.py`, `sensor_device.py`, `vehicle.py`,
`virtual_sensor.py`, `virtual_vehicle.py`).  Floating point numbers are
modelled by real numbers; Python tuples by products; object state by
explicit records threaded through the operations.  Plotting, logging and
shape-drawing code has no effect on any datum the claims mention and is
omitted.
-/

namespace Flatland

open Real

/-- Embedding of `np.deg2rad`: degrees to radians. -/
noncomputable def deg2rad (x : ℝ) : ℝ := x * Real.pi / 180

/-- Embedding of `np.rad2deg`: radians to degrees. -/
noncomputable def rad2deg (x : ℝ) : ℝ := x * 180 / Real.pi

/-- Embedding of `np.arctan2 y x`: the angle of the point `(x, y)` in `(-pi, pi]`
(the argument of the complex number `x + y i`, with `arctan2 0 0 = 0`). -/
noncomputable def arctan2 (y x : ℝ) : ℝ := Complex.arg ⟨x, y⟩

/-- Embedding of `geom_utils.cart2pol`. -/
noncomputable def cart2pol (x y : ℝ) : ℝ × ℝ :=
  (Real.sqrt (x ^ 2 + y ^ 2), arctan2 y x)

/-- Embedding of `geom_utils.pol2cart` (with the angle-unit flag). -/
noncomputable def pol2cart (rho phi : ℝ) (rad : Bool := true) : ℝ × ℝ :=
  let phi_rad := if rad then phi else deg2rad phi
  (rho * Real.cos phi_rad, rho * Real.sin phi_rad)

/-- Embedding of `geom_utils.to_polar`. -/
noncomputable def to_polar (points : List (ℝ × ℝ)) : List (ℝ × ℝ) :=
  points.map (fun p => cart2pol p.1 p.2)

/-- Embedding of `geom_utils.to_rect`. -/
noncomputable def to_rect (points : List (ℝ × ℝ)) : List (ℝ × ℝ) :=
  points.map (fun p => pol2cart p.1 p.2)

/-- Embedding of `geom_utils.rotate` on a list of points: convert to polar, add the
angle, convert back to rectangular coordinates. -/
noncomputable def rotate_points (points : List (ℝ × ℝ)) (angle : ℝ)
    (rad : Bool := false) : List (ℝ × ℝ) :=
  let polar_shape := to_polar points
  let alpha := if rad then angle else deg2rad angle
  let rotated_shape := polar_shape.map (fun p => (p.1, p.2 + alpha))
  to_rect rotated_shape

/-- A `local_sys` tuple `(xo, yo, alpha, rad)` as used by
`globalpos_to_localpos` and `localpos_to_globalpos`. -/
abbrev LocalSys : Type := ℝ × ℝ × ℝ × Bool

/-- Embedding of `geom_utils.globalpos_to_localpos`. -/
noncomputable def globalpos_to_localpos (point : ℝ × ℝ) (local_sys : LocalSys) :
    ℝ × ℝ :=
  let xp := point.1
  let yp := point.2
  let xo := local_sys.1
  let yo := local_sys.2.1
  let alpha := local_sys.2.2.1
  let rad := local_sys.2.2.2
  let alpha_rad := if rad then alpha else deg2rad alpha
  (Real.cos alpha_rad * (xp - xo) - Real.sin alpha_rad * (yp - yo),
   Real.sin alpha_rad * (xp - xo) + Real.cos alpha_rad * (yp - yo))

/-- Embedding of `geom_utils.localpos_to_globalpos`. -/
noncomputable def localpos_to_globalpos (point : ℝ × ℝ) (local_sys : LocalSys) :
    ℝ × ℝ :=
  let xl := point.1
  let yl := point.2
  let xo := local_sys.1
  let yo := local_sys.2.1
  let alpha := local_sys.2.2.1
  let rad := local_sys.2.2.2
  let alpha_rad := if rad then alpha else deg2rad alpha
  (xo + xl * Real.cos alpha_rad - yl * Real.sin alpha_rad,
   yo + xl * Real.sin alpha_rad + yl * Real.cos alpha_rad)

/-- The mutable state of a `Sensor` (`sensor.py`).  The `beam` field holds
the value already converted to radians by the constructor; `orientation`
is in radians; `detected_point` and `measured_point` start out as the
empty tuple, modelled by `none`.  The drawing-only `shape` field is
omitted. -/
structure SensorState where
  beam : ℝ
  range : ℝ
  position : ℝ × ℝ
  orientation : ℝ
  env_points : List (ℝ × ℝ)
  surroundings : List (ℝ × ℝ)
  xwest : ℝ
  xeast : ℝ
  ynorth : ℝ
  ysouth : ℝ
  local_polar_points : List (ℝ × ℝ)
  detected_point : Option (ℝ × ℝ)
  measured_point : Option (ℝ × ℝ)

/-- The in-beam filter loop of `Sensor.read`: the points of
`local_polar_points` whose angle lies within half a beam of the reading
direction (both comparisons are inclusive in the source). -/
noncomputable def into_beam (s : SensorState) (at_angle : ℝ) : List (ℝ × ℝ) :=
  s.local_polar_points.filter (fun p =>
    decide (p.2 ≥ deg2rad at_angle - s.beam / 2) &&
    decide (p.2 ≤ deg2rad at_angle + s.beam / 2))

/-- One step of Python's `min` over tuples: keep the accumulator unless
the next element is strictly smaller in lexicographic tuple order. -/
noncomputable def pyTupleMin (x : ℝ × ℝ) (l : List (ℝ × ℝ)) : ℝ × ℝ :=
  l.foldl (fun m p => if p.1 < m.1 ∨ (p.1 = m.1 ∧ p.2 < m.2) then p else m) x

/-- Python's `min` over a list of pairs (lexicographic order).  `min` of
an empty list raises in Python; `read` only applies it to a non-empty
list, so the `[]` case here is a junk value. -/
noncomputable def pyMin (l : List (ℝ × ℝ)) : ℝ × ℝ :=
  match l with
  | [] => (0, 0)
  | x :: xs => pyTupleMin x xs

/-- Lexicographic `≤` on pairs, the order `min` uses on Python tuples. -/
def pairLe (p q : ℝ × ℝ) : Prop := p.1 < q.1 ∨ (p.1 = q.1 ∧ p.2 ≤ q.2)

/-- Embedding of `Sensor.read`: filter the cached local-polar points to the beam,
return the sentinel `(0, at_angle)` when nothing is in the beam, and
otherwise the lexicographically minimal `(rho, phi)` pair clamped to `0`
when its `rho` exceeds the range.  Returns the reading together with the
updated state (the two diagnostic fields are only written on the
non-empty branch; the source returns early on an empty beam). -/
noncomputable def read (s : SensorState) (at_angle : ℝ) :
    (ℝ × ℝ) × SensorState :=
  let into_beam_points := into_beam s at_angle
  if into_beam_points = [] then ((0, at_angle), s)
  else
    let dp := pyMin into_beam_points
    let detected : ℝ × ℝ := (dp.1, rad2deg dp.2)
    let measure := if detected.1 > s.range then 0 else detected.1
    ((measure, at_angle),
     { s with detected_point := some detected,
              measured_point := some (measure, at_angle) })

/-- Embedding of `np.arange a b step` for a positive step: the values `a + i * step`
for `0 ≤ i < ⌈(b - a) / step⌉` (numpy computes exactly this count). -/
noncomputable def arange (a b step : ℝ) : List ℝ :=
  (List.range (Int.toNat ⌈(b - a) / step⌉)).map
    (fun i : ℕ => a + (i : ℝ) * step)

/-- The body of the scanning loop of `Sensor.scan`: read at the given
angle, append the measure, thread the sensor state. -/
noncomputable def scan_loop_body (acc : List (ℝ × ℝ) × SensorState)
    (angle : ℝ) : List (ℝ × ℝ) × SensorState :=
  (acc.1 ++ [(read acc.2 angle).1], (read acc.2 angle).2)

/-- Embedding of `Sensor.scan`: clamp the step to a minimum of `1` (emitting a warning,
returned here as the final `Bool`), sweep `np.arange angle_from angle_to
scan_step` calling `read` at each angle, then restore the saved
orientation.  (The source's `meas is not ()` test never rejects a
reading, since `read` always returns a 2-tuple.) -/
noncomputable def scan (s : SensorState) (angle_from angle_to : ℝ)
    (step : ℝ) : List (ℝ × ℝ) × SensorState × Bool :=
  let sensor_orientation := s.orientation
  let warned := if step < 1 then true else false
  let scan_step := if step < 1 then (1 : ℝ) else step
  let scan_angles := arange angle_from angle_to scan_step
  let result := scan_angles.foldl scan_loop_body ([], s)
  (result.1, { result.2 with orientation := sensor_orientation }, warned)

/-- Embedding of `Sensor._surroundings`: recompute the axis-aligned box bounds from
the current position and range, and keep exactly the environment points
inside the box (all four comparisons inclusive). -/
noncomputable def sensor_surroundings (s : SensorState) : SensorState :=
  let xpos := s.position.1
  let ypos := s.position.2
  let xw := xpos - s.range
  let xe := xpos + s.range
  let yn := ypos + s.range
  let ys := ypos - s.range
  { s with xwest := xw, xeast := xe, ynorth := yn, ysouth := ys,
           surroundings := s.env_points.filter (fun p =>
             (decide (p.1 ≥ xw) && decide (p.1 ≤ xe)) &&
             (decide (p.2 ≤ yn) && decide (p.2 ≥ ys))) }

/-- Embedding of `Sensor._sensor_point_of_view`: recompute the surroundings, move them
into the sensor-local frame (note the source negates the orientation
because `globalpos_to_localpos` rotates by `+alpha`), and cache their
polar form. -/
noncomputable def sensor_point_of_view (s : SensorState) : SensorState :=
  let s1 := sensor_surroundings s
  let local_sys : LocalSys := (s1.position.1, s1.position.2,
    -s1.orientation, true)
  let local_points := s1.surroundings.map
    (fun point => globalpos_to_localpos point local_sys)
  { s1 with local_polar_points := to_polar local_points }

/-- Embedding of `Sensor.traslate` (shape drawing omitted): store the new position and,
when `spov`, rebuild the point of view. -/
noncomputable def traslate (s : SensorState) (position : ℝ × ℝ)
    (spov : Bool := true) : SensorState :=
  let s1 := { s with position := position }
  if spov then sensor_point_of_view s1 else s1

/-- Embedding of `Sensor.rotate` (shape drawing omitted): store the new orientation,
call `traslate` at the unchanged position (which, with its default
`spov = True`, already rebuilds the point of view) and, when `spov`,
rebuild it once more. -/
noncomputable def sensor_rotate (s : SensorState) (alpha : ℝ)
    (rad : Bool := false) (spov : Bool := true) : SensorState :=
  let s1 := { s with orientation := if rad then alpha else deg2rad alpha }
  let s2 := traslate s1 s1.position true
  if spov then sensor_point_of_view s2 else s2

/-- Embedding of `Sensor.place`: rotate without rebuilding, then translate (which
rebuilds). -/
noncomputable def place (s : SensorState) (position : ℝ × ℝ) (angle : ℝ)
    (rad : Bool := false) : SensorState :=
  traslate (sensor_rotate s angle rad false) position true

/-- Embedding of `Sensor.load_env`: the environment is a list of objects each
providing `get_points()`, modelled as a list of point lists.  The source
appends the points only when `env_points` is still empty — despite its
docstring promising that every call replaces the previous points — and
then rebuilds the point of view. -/
noncomputable def load_env (s : SensorState)
    (venv : List (List (ℝ × ℝ))) : SensorState :=
  let s1 := if s.env_points = [] then
      { s with env_points := s.env_points ++ venv.flatten } else s
  sensor_point_of_view s1

/-- The inclusive axis-aligned box predicate of `_surroundings`, written
with the source's four comparisons. -/
def inBox (pos : ℝ × ℝ) (range : ℝ) (q : ℝ × ℝ) : Prop :=
  (q.1 ≥ pos.1 - range ∧ q.1 ≤ pos.1 + range) ∧
  (q.2 ≤ pos.2 + range ∧ q.2 ≥ pos.2 - range)

/-- The box filter of `_surroundings` as a standalone function of the
data it actually depends on: environment, position and range. -/
noncomputable def box_filter (env : List (ℝ × ℝ)) (pos : ℝ × ℝ)
    (range : ℝ) : List (ℝ × ℝ) :=
  env.filter (fun p =>
    (decide (p.1 ≥ pos.1 - range) && decide (p.1 ≤ pos.1 + range)) &&
    (decide (p.2 ≤ pos.2 + range) && decide (p.2 ≥ pos.2 - range)))

/-- A freshly constructed sensor state (all caches empty), as left by
`Sensor.__init__` for a beam of `2` radians and range `4`. -/
noncomputable def freshSensor : SensorState :=
  { beam := 2, range := 4, position := (0, 0), orientation := 0,
    env_points := [], surroundings := [], xwest := 0, xeast := 0,
    ynorth := 0, ysouth := 0, local_polar_points := [],
    detected_point := none, measured_point := none }

/-- A sensor at the origin with range `2` whose surroundings cache is
already built for the two-point environment `[(1,1), (10,10)]` (only
`(1,1)` is inside the box). -/
noncomputable def c8state : SensorState :=
  { beam := 2, range := 2, position := (0, 0), orientation := 0,
    env_points := [(1, 1), (10, 10)], surroundings := [(1, 1)],
    xwest := -2, xeast := 2, ynorth := 2, ysouth := -2,
    local_polar_points := [], detected_point := none,
    measured_point := none }

/-- A concrete sensor state with its local-polar cache already built: two
cached points dead ahead at distances `5` and `3`, beam `2` radians,
range `4`.  Used by witnesses. -/
noncomputable def c1state : SensorState :=
  { beam := 2, range := 4, position := (0, 0), orientation := 0,
    env_points := [], surroundings := [], xwest := 0, xeast := 0,
    ynorth := 0, ysouth := 0, local_polar_points := [(5, 0), (3, 0)],
    detected_point := none, measured_point := none }

/-- Embedding of `geom_utils.to_globalpos`: apply `localpos_to_globalpos` to a list
of points. -/
noncomputable def to_globalpos (points : List (ℝ × ℝ))
    (local_sys : LocalSys) : List (ℝ × ℝ) :=
  points.map (fun point => localpos_to_globalpos point local_sys)

/-- Embedding of `geom.rotate([p], alpha, rad=True)[0]`: the single-point rotation
used by `update_placement`. -/
noncomputable def rotate_one (p : ℝ × ℝ) (alpha : ℝ) : ℝ × ℝ :=
  (rotate_points [p] alpha true).headI

/-- The state of a `SensorDevice` / `VirtualSensor`: a sensor plus its
mount point and mount orientation (the latter stored in radians by the
constructor). -/
structure DevState extends SensorState where
  mnt_pt : ℝ × ℝ
  mnt_orient : ℝ

/-- Embedding of `SensorDevice.update_placement`: note the first line applies
`np.deg2rad` to `chassis_rot` even though `Vehicle.turn`/`move` pass the
vehicle's orientation attribute, which is already in radians. -/
noncomputable def update_placement (d : DevState) (chassis_pos : ℝ × ℝ)
    (chassis_rot : ℝ) : DevState :=
  let chassis_rot_angle := deg2rad chassis_rot
  let dev_orient := d.mnt_orient + chassis_rot_angle
  let new_mnt := rotate_one d.mnt_pt chassis_rot_angle
  let newdev := (chassis_pos.1 + new_mnt.1, chassis_pos.2 + new_mnt.2)
  { d with toSensorState := place d.toSensorState newdev dev_orient true }

/-- Embedding of `VirtualSensor.update_placement`: the variant that uses `chassis_rot`
directly (its docstring declares the parameter to be in radians). -/
noncomputable def update_placement_virtual (d : DevState)
    (chassis_pos : ℝ × ℝ) (chassis_rot : ℝ) : DevState :=
  let dev_orient := d.mnt_orient + chassis_rot
  let new_mnt := rotate_one d.mnt_pt chassis_rot
  let newdev := (chassis_pos.1 + new_mnt.1, chassis_pos.2 + new_mnt.2)
  { d with toSensorState := place d.toSensorState newdev dev_orient true }

/-- The state of a `Vehicle`: pose, path log with sequence counter,
footprint dimensions, and the name-keyed sensor registry (a Python dict,
modelled as an association list in insertion order).  The drawing-only
`shape`, the `flatland` handle and the logger are omitted. -/
structure VehicleState where
  position : ℝ × ℝ
  orientation : ℝ
  path : List (ℝ × ℝ × ℝ × ℕ)
  seq_counter : ℕ
  length : ℝ
  width : ℝ
  sensors : List (String × DevState)
  tracing : Bool

/-- Embedding of `Vehicle._save_datapath`: increment the sequence counter and append
one `DataPath` entry carrying the current pose. -/
noncomputable def save_datapath (v : VehicleState) : VehicleState :=
  { v with seq_counter := v.seq_counter + 1,
           path := v.path ++
             [(v.position.1, v.position.2, v.orientation, v.seq_counter + 1)] }

/-- Embedding of `Vehicle.turn`: add `deg2rad angle` to the orientation, update every
sensor's placement from the new pose, and log the path entry. -/
noncomputable def turn (v : VehicleState) (angle : ℝ) : VehicleState :=
  let v1 := { v with orientation := v.orientation + deg2rad angle }
  let v2 := { v1 with sensors := (v1.sensors.map
      (fun nd => (nd.1, update_placement nd.2 v1.position v1.orientation))) }
  save_datapath v2

/-- Embedding of `Vehicle.move`: translate by `|distance|` along the heading (sign of
`distance` selecting forward/backward), update every sensor's placement
from the new pose, and log the path entry. -/
noncomputable def move (v : VehicleState) (distance : ℝ) : VehicleState :=
  let abs_dist := |distance|
  let x_move0 := abs_dist * Real.cos v.orientation
  let y_move0 := abs_dist * Real.sin v.orientation
  let x_move := if distance < 0 then -x_move0 else x_move0
  let y_move := if distance < 0 then -y_move0 else y_move0
  let v1 := { v with position :=
      (v.position.1 + x_move, v.position.2 + y_move) }
  let v2 := { v1 with sensors := (v1.sensors.map
      (fun nd => (nd.1, update_placement nd.2 v1.position v1.orientation))) }
  save_datapath v2

/-- Modelled from the spec: the sensor-level `ping` that `Vehicle.ping`
invokes (`self.sensors[sensor_name].ping(angle)`) is absent from the
sources (no `ping` method exists on `Sensor`, `SensorDevice` or
`VirtualSensor`); per the spec's interface `RangeSensor.read(angle) ->
(range, angle)` and `Vehicle.ping(sensorName, angle) -> (range, angle) |
failure`, it returns the sensor's single reading at that angle. -/
noncomputable def sensor_ping (d : DevState) (angle : ℝ) : ℝ × ℝ :=
  (read d.toSensorState angle).1

/-- Embedding of `Vehicle.ping`: report an error and return `None` when the name is
not registered; otherwise the named sensor's reading. -/
noncomputable def vehicle_ping (v : VehicleState) (sensor_name : String)
    (angle : ℝ) : Option (ℝ × ℝ) :=
  match v.sensors.lookup sensor_name with
  | none => none
  | some d => some (sensor_ping d angle)

/-- Embedding of `Vehicle.scan`: sweep all sensors for the `"all"` sentinel, the named
sensor when registered, and otherwise report an error and return the
empty dict. -/
noncomputable def vehicle_scan (v : VehicleState) (sensor_name : String)
    (angle_from angle_to angle_step : ℝ) :
    List (String × List (ℝ × ℝ)) :=
  if sensor_name = "all" then
    v.sensors.map (fun nd =>
      (nd.1, (scan nd.2.toSensorState angle_from angle_to angle_step).1))
  else
    match v.sensors.lookup sensor_name with
    | some d => [(sensor_name,
        (scan d.toSensorState angle_from angle_to angle_step).1)]
    | none => []

/-- A Python value as far as the sensor constructor chain is concerned:
the arguments it receives are either strings or numbers. -/
inductive PyVal where
  | str : String → PyVal
  | num : ℝ → PyVal

/-- Embedding of `np.deg2rad` on a Python value: it raises `TypeError` when applied to a string. -/
noncomputable def pyDeg2rad : PyVal → Except String ℝ
  | PyVal.str _ => Except.error ("TypeError: deg2rad of str")
  | PyVal.num x => Except.ok (deg2rad x)

/-- Embedding of `Sensor.__init__` with its actual positional signature
`(beam, range, name)` — the docstring documents `name` first.  Its first
effectful statement computes `np.deg2rad(beam)`, which raises when the
`beam` slot holds a string.  In every in-repo call the `range` slot holds
the numeric `beam` argument, so it is taken as a real here. -/
noncomputable def sensor_init (beam : PyVal) (rng : ℝ) :
    Except String SensorState :=
  match pyDeg2rad beam with
  | Except.error e => Except.error e
  | Except.ok b => Except.ok
      { beam := b, range := rng, position := (0, 0), orientation := 0,
        env_points := [], surroundings := [], xwest := 0, xeast := 0,
        ynorth := 0, ysouth := 0, local_polar_points := [],
        detected_point := none, measured_point := none }

/-- Embedding of `SensorDevice.__init__`: it forwards `(name, beam, range)` positionally
to `Sensor.__init__`, whose signature is `(beam, range, name)` — the name
string lands in the `beam` parameter. -/
noncomputable def sensor_device_init (name : String) (beam rng : ℝ)
    (mnt_pt : ℝ × ℝ) (mnt_orient : ℝ) : Except String DevState :=
  match sensor_init (PyVal.str name) beam with
  | Except.error e => Except.error e
  | Except.ok s => Except.ok
      { toSensorState := s, mnt_pt := mnt_pt,
        mnt_orient := deg2rad mnt_orient }

/-- Python dict assignment `d[k] = x` on an insertion-ordered
association list. -/
noncomputable def dict_insert (l : List (String × DevState)) (k : String)
    (d : DevState) : List (String × DevState) :=
  if l.any (fun kv => kv.1 == k) then
    l.map (fun kv => if kv.1 == k then (k, d) else kv)
  else l ++ [(k, d)]

/-- Embedding of `Vehicle.mount_sensor`: reject mount points outside the footprint
bounds (returning `False` with no mutation), otherwise construct a
`SensorDevice` (fallible, see `sensor_init`), register it and update its
placement from the current pose. -/
noncomputable def mount_sensor (v : VehicleState) (name : String)
    (beam rng : ℝ) (mnt_pt : ℝ × ℝ) (mnt_orient : ℝ) :
    Except String (VehicleState × Bool) :=
  if mnt_pt.1 > v.length / 2 ∨ mnt_pt.1 < -(v.length / 2) then
    Except.ok (v, false)
  else if mnt_pt.2 > v.width / 2 ∨ mnt_pt.2 < -(v.width / 2) then
    Except.ok (v, false)
  else
    match sensor_device_init name beam rng mnt_pt mnt_orient with
    | Except.error e => Except.error e
    | Except.ok d =>
        let d' := update_placement d v.position v.orientation
        Except.ok ({ v with sensors := dict_insert v.sensors name d' }, true)

/-- The per-sensor loop body of `scan_to_map` (`vehicle.py` and
`virtual_vehicle.py` are identical here): degree readings to radians, to
rectangular, then — although the sensor-frame transform into the vehicle
frame is computed into `vehicle_ref_readings` — the returned map points
transform the raw `rect_readings` by the vehicle frame only; the
sensor-frame stage is dead code. -/
noncomputable def scan_to_map_one (vehicle_ref sensor_ref : LocalSys)
    (readings : List (ℝ × ℝ)) (invert_rho_phi : Bool) : List (ℝ × ℝ) :=
  let rad_polar_readings := readings.map (fun t =>
    if invert_rho_phi then (t.2, deg2rad t.1) else (t.1, deg2rad t.2))
  let rect_readings := to_rect rad_polar_readings
  let _vehicle_ref_readings := to_globalpos rect_readings sensor_ref
  to_globalpos rect_readings vehicle_ref

/-- Modelled from the spec (and from `scan_to_map`'s own docstring): the
intended two-stage composition — sensor-local to vehicle frame, then
vehicle frame to world frame. -/
noncomputable def scan_to_map_spec_one (vehicle_ref sensor_ref : LocalSys)
    (readings : List (ℝ × ℝ)) (invert_rho_phi : Bool) : List (ℝ × ℝ) :=
  let rad_polar_readings := readings.map (fun t =>
    if invert_rho_phi then (t.2, deg2rad t.1) else (t.1, deg2rad t.2))
  let rect_readings := to_rect rad_polar_readings
  to_globalpos (to_globalpos rect_readings sensor_ref) vehicle_ref

/-- A `SensorDevice` state mounted at `(10, 0)` with mount orientation
`0`, its sensor part freshly constructed. -/
noncomputable def c4dev : DevState :=
  { toSensorState := freshSensor, mnt_pt := (10, 0), mnt_orient := 0 }

/-- A vehicle at the origin, orientation `0`, footprint `20 x 15`, with
the single sensor `"S"` mounted as `c4dev`. -/
noncomputable def c4vehicle : VehicleState :=
  { position := (0, 0), orientation := 0, path := [], seq_counter := 0,
    length := 20, width := 15, sensors := [("S", c4dev)],
    tracing := false }

/-- A sensorless vehicle at the origin with footprint `20 x 15`. -/
noncomputable def c6vehicle : VehicleState :=
  { position := (0, 0), orientation := 0, path := [], seq_counter := 0,
    length := 20, width := 15, sensors := [], tracing := false }

/-- Unfolding of `globalpos_to_localpos` when the angle is already in
radians. -/
lemma globalpos_to_localpos_rad (point : ℝ × ℝ) (xo yo alpha : ℝ) :
    globalpos_to_localpos point (xo, yo, alpha, true) =
      (Real.cos alpha * (point.1 - xo) - Real.sin alpha * (point.2 - yo),
       Real.sin alpha * (point.1 - xo) + Real.cos alpha * (point.2 - yo)) := by
  simp [globalpos_to_localpos]

/-- Unfolding of `globalpos_to_localpos` when the angle is in degrees. -/
lemma globalpos_to_localpos_deg (point : ℝ × ℝ) (xo yo alpha : ℝ) :
    globalpos_to_localpos point (xo, yo, alpha, false) =
      globalpos_to_localpos point (xo, yo, deg2rad alpha, true) := by
  simp [globalpos_to_localpos]

/-- Unfolding of `localpos_to_globalpos` when the angle is already in
radians. -/
lemma localpos_to_globalpos_rad (point : ℝ × ℝ) (xo yo alpha : ℝ) :
    localpos_to_globalpos point (xo, yo, alpha, true) =
      (xo + point.1 * Real.cos alpha - point.2 * Real.sin alpha,
       yo + point.1 * Real.sin alpha + point.2 * Real.cos alpha) := by
  simp [localpos_to_globalpos]

/-- Unfolding of `localpos_to_globalpos` when the angle is in degrees. -/
lemma localpos_to_globalpos_deg (point : ℝ × ℝ) (xo yo alpha : ℝ) :
    localpos_to_globalpos point (xo, yo, alpha, false) =
      localpos_to_globalpos point (xo, yo, deg2rad alpha, true) := by
  simp [localpos_to_globalpos]

end Flatland

namespace Flatland

/-- C2 counterexample: at `p = (1, 0)` and frame `(0, 0, pi/2, rad)` the
round trip `globalpos_to_localpos (localpos_to_globalpos p f) f` yields
`(-1, 0)`, not `p`: both transforms rotate by `+alpha`, so the round trip
rotates by `2 * alpha`. -/
theorem c2_roundtrip_counterexample :
    globalpos_to_localpos
        (localpos_to_globalpos ((1 : ℝ), (0 : ℝ)) (0, 0, Real.pi / 2, true))
        (0, 0, Real.pi / 2, true) = ((-1 : ℝ), (0 : ℝ)) ∧
    ((-1 : ℝ), (0 : ℝ)) ≠ ((1 : ℝ), (0 : ℝ)) := by
  constructor
  · simp [globalpos_to_localpos, localpos_to_globalpos]
  · intro h
    have h1 : (-1 : ℝ) = 1 := congrArg Prod.fst h
    norm_num at h1

/-- C2 (amended): `globalpos_to_localpos` rotates by `+alpha` (the same
sign as `localpos_to_globalpos`), so the round trip is the identity once
the frame angle is negated in the global-to-local step — exactly the
convention the sensor code uses (`alpha = -self.orientation`). -/
theorem c2_roundtrip_with_negated_angle (p : ℝ × ℝ) (xo yo alpha : ℝ)
    (rad : Bool) :
    globalpos_to_localpos (localpos_to_globalpos p (xo, yo, alpha, rad))
      (xo, yo, -alpha, rad) = p := by
  have key : ∀ b : ℝ,
      globalpos_to_localpos (localpos_to_globalpos p (xo, yo, b, true))
        (xo, yo, -b, true) = p := by
    intro b
    have hsc := Real.sin_sq_add_cos_sq b
    rw [localpos_to_globalpos_rad, globalpos_to_localpos_rad]
    apply Prod.ext
    · show Real.cos (-b) * (xo + p.1 * Real.cos b - p.2 * Real.sin b - xo) -
          Real.sin (-b) * (yo + p.1 * Real.sin b + p.2 * Real.cos b - yo) = p.1
      rw [Real.cos_neg, Real.sin_neg]
      linear_combination p.1 * hsc
    · show Real.sin (-b) * (xo + p.1 * Real.cos b - p.2 * Real.sin b - xo) +
          Real.cos (-b) * (yo + p.1 * Real.sin b + p.2 * Real.cos b - yo) = p.2
      rw [Real.cos_neg, Real.sin_neg]
      linear_combination p.2 * hsc
  cases rad with
  | true => exact key alpha
  | false =>
      have hneg : deg2rad (-alpha) = -(deg2rad alpha) := by
        simp only [deg2rad]; ring
      rw [globalpos_to_localpos_deg, localpos_to_globalpos_deg, hneg]
      exact key (deg2rad alpha)

lemma pairLe_refl (p : ℝ × ℝ) : pairLe p p := Or.inr ⟨rfl, le_refl _⟩

lemma pairLe_trans {a b c : ℝ × ℝ} (h1 : pairLe a b) (h2 : pairLe b c) :
    pairLe a c := by
  rcases h1 with h1 | ⟨h1e, h1le⟩ <;> rcases h2 with h2 | ⟨h2e, h2le⟩
  · exact Or.inl (lt_trans h1 h2)
  · exact Or.inl (lt_of_lt_of_le h1 (le_of_eq h2e))
  · exact Or.inl (lt_of_le_of_lt (le_of_eq h1e) h2)
  · exact Or.inr ⟨h1e.trans h2e, le_trans h1le h2le⟩

/-- Strict lexicographic comparison (Python tuple `<`) implies `pairLe`. -/
lemma pairLt_le {p q : ℝ × ℝ}
    (h : p.1 < q.1 ∨ (p.1 = q.1 ∧ p.2 < q.2)) : pairLe p q := by
  rcases h with h | ⟨he, hlt⟩
  · exact Or.inl h
  · exact Or.inr ⟨he, le_of_lt hlt⟩

/-- Lexicographic order on pairs is total: a failed strict comparison
gives the reverse `pairLe`. -/
lemma pairLe_of_not_lt {p q : ℝ × ℝ}
    (h : ¬(p.1 < q.1 ∨ (p.1 = q.1 ∧ p.2 < q.2))) : pairLe q p := by
  push_neg at h
  obtain ⟨h1, h2⟩ := h
  rcases eq_or_lt_of_le h1 with he | hlt
  · exact Or.inr ⟨he, h2 he.symm⟩
  · exact Or.inl hlt

lemma pyTupleMin_cons (x p : ℝ × ℝ) (l : List (ℝ × ℝ)) :
    pyTupleMin x (p :: l) =
      pyTupleMin (if p.1 < x.1 ∨ (p.1 = x.1 ∧ p.2 < x.2) then p else x) l := by
  unfold pyTupleMin
  rw [List.foldl_cons]

/-- The fold implementing Python's `min` returns an element of the
list it scans (accumulator included). -/
lemma pyTupleMin_mem (x : ℝ × ℝ) (l : List (ℝ × ℝ)) :
    pyTupleMin x l ∈ x :: l := by
  induction l generalizing x with
  | nil => simp [pyTupleMin]
  | cons p l ih =>
      rw [pyTupleMin_cons]
      by_cases hc : p.1 < x.1 ∨ (p.1 = x.1 ∧ p.2 < x.2)
      · rw [if_pos hc]
        rcases List.mem_cons.mp (ih p) with h' | h' <;> simp [h']
      · rw [if_neg hc]
        rcases List.mem_cons.mp (ih x) with h' | h' <;> simp [h']

/-- The fold implementing Python's `min` is a lexicographic lower bound
of everything it scanned. -/
lemma pyTupleMin_le (x : ℝ × ℝ) (l : List (ℝ × ℝ)) :
    ∀ q ∈ x :: l, pairLe (pyTupleMin x l) q := by
  induction l generalizing x with
  | nil =>
      intro q hq
      rcases List.mem_cons.mp hq with h | h
      · rw [h]; exact pairLe_refl _
      · exact absurd h (List.not_mem_nil q)
  | cons p l ih =>
      intro q hq
      rw [pyTupleMin_cons]
      by_cases hc : p.1 < x.1 ∨ (p.1 = x.1 ∧ p.2 < x.2)
      · rw [if_pos hc]
        rcases List.mem_cons.mp hq with h | h
        · have hp := ih p p (List.mem_cons_self p l)
          exact h ▸ pairLe_trans hp (pairLt_le hc)
        · exact ih p q h
      · rw [if_neg hc]
        rcases List.mem_cons.mp hq with h | h
        · exact ih x q (h ▸ List.mem_cons_self x l)
        · rcases List.mem_cons.mp h with h' | h'
          · have hx := ih x x (List.mem_cons_self x l)
            exact h' ▸ pairLe_trans hx (pairLe_of_not_lt hc)
          · exact ih x q (List.mem_cons_of_mem x h')

lemma pyMin_cons (x : ℝ × ℝ) (xs : List (ℝ × ℝ)) :
    pyMin (x :: xs) = pyTupleMin x xs := rfl

/-- The result of `pyMin` on a non-empty list is one of its elements. -/
lemma pyMin_mem {l : List (ℝ × ℝ)} (h : l ≠ []) : pyMin l ∈ l := by
  cases l with
  | nil => exact absurd rfl h
  | cons x xs => rw [pyMin_cons]; exact pyTupleMin_mem x xs

/-- The result of `pyMin` is a lexicographic lower bound of its list. -/
lemma pyMin_le {l : List (ℝ × ℝ)} (q : ℝ × ℝ) (hq : q ∈ l) :
    pairLe (pyMin l) q := by
  cases l with
  | nil => exact absurd hq (List.not_mem_nil q)
  | cons x xs => rw [pyMin_cons]; exact pyTupleMin_le x xs q hq

/-- Membership in the in-beam candidate list of `read`. -/
lemma mem_into_beam (s : SensorState) (a : ℝ) (q : ℝ × ℝ) :
    q ∈ into_beam s a ↔
      q ∈ s.local_polar_points ∧
        deg2rad a - s.beam / 2 ≤ q.2 ∧ q.2 ≤ deg2rad a + s.beam / 2 := by
  simp [into_beam, List.mem_filter, ge_iff_le, and_assoc]

/-- C1: `read(atAngle)` considers exactly the cached local-polar points
whose angle lies in the closed interval
`[deg2rad atAngle - beam/2, deg2rad atAngle + beam/2]`; on an empty
candidate set it returns the sentinel `(0, atAngle)` and leaves the state
untouched; otherwise it selects the candidate of minimum `rho` (ties
broken by smallest `phi`), returns its `rho` (clamped to `0` when it
exceeds `range`) paired with `atAngle`, and records the raw selected
point in `detected_point`. -/
theorem c1_read_beam_min_clamp (s : SensorState) (a : ℝ) :
    (∀ q : ℝ × ℝ, q ∈ into_beam s a ↔
        q ∈ s.local_polar_points ∧
          deg2rad a - s.beam / 2 ≤ q.2 ∧ q.2 ≤ deg2rad a + s.beam / 2) ∧
    (into_beam s a = [] → read s a = ((0, a), s)) ∧
    (into_beam s a ≠ [] →
        pyMin (into_beam s a) ∈ into_beam s a ∧
        (∀ q ∈ into_beam s a, pairLe (pyMin (into_beam s a)) q) ∧
        read s a =
          ((if (pyMin (into_beam s a)).1 > s.range then 0
              else (pyMin (into_beam s a)).1, a),
            { s with
                detected_point := some ((pyMin (into_beam s a)).1,
                  rad2deg (pyMin (into_beam s a)).2),
                measured_point := some
                  (if (pyMin (into_beam s a)).1 > s.range then 0
                    else (pyMin (into_beam s a)).1, a) })) := by
  refine ⟨mem_into_beam s a, ?_, ?_⟩
  · intro h
    rw [read]
    simp [h]
  · intro h
    refine ⟨pyMin_mem h, fun q hq => pyMin_le q hq, ?_⟩
    rw [read]
    simp only [if_neg h]

/-- Reading does not modify the fields its reading value depends on, nor
the orientation. -/
lemma read_state_fields (s : SensorState) (a : ℝ) :
    ((read s a).2).beam = s.beam ∧ ((read s a).2).range = s.range ∧
    ((read s a).2).local_polar_points = s.local_polar_points ∧
    ((read s a).2).orientation = s.orientation := by
  rw [read]
  by_cases h : into_beam s a = [] <;> simp [h]

/-- The value of `read` depends only on `beam`, `range` and
`local_polar_points`. -/
lemma read_value_congr (s t : SensorState) (a : ℝ)
    (hb : t.beam = s.beam) (hr : t.range = s.range)
    (hl : t.local_polar_points = s.local_polar_points) :
    (read t a).1 = (read s a).1 := by
  have hib : into_beam t a = into_beam s a := by
    rw [into_beam, into_beam, hb, hl]
  rw [read, read, hib]
  by_cases h : into_beam s a = [] <;> simp [h, hr]

/-- Invariant of the scanning loop: threading the state through
successive `read`s yields the same measures as reading each angle from
the starting state, and never changes the orientation. -/
lemma scan_loop_spec (angles : List ℝ) (acc : List (ℝ × ℝ))
    (s0 s : SensorState)
    (hb : s.beam = s0.beam) (hr : s.range = s0.range)
    (hl : s.local_polar_points = s0.local_polar_points)
    (ho : s.orientation = s0.orientation) :
    (angles.foldl scan_loop_body (acc, s)).1 =
      acc ++ angles.map (fun a => (read s0 a).1) ∧
    ((angles.foldl scan_loop_body (acc, s)).2).orientation =
      s0.orientation := by
  induction angles generalizing acc s with
  | nil => simpa using ho
  | cons a as ih =>
      have hv : (read s a).1 = (read s0 a).1 := read_value_congr s0 s a hb hr hl
      obtain ⟨fb, fr, fl, fo⟩ := read_state_fields s a
      have step : (a :: as).foldl scan_loop_body (acc, s) =
          as.foldl scan_loop_body (acc ++ [(read s a).1], (read s a).2) := rfl
      rw [step, hv]
      have h := ih (acc ++ [(read s0 a).1]) (read s a).2
        (fb.trans hb) (fr.trans hr) (fl.trans hl) (fo.trans ho)
      refine ⟨?_, h.2⟩
      rw [h.1, List.map_cons, List.append_assoc]
      rfl

/-- Every element of `arange a b step` (for `step > 0`) lies in
`[a, b)`. -/
lemma arange_mem_bounds (a b step : ℝ) (hstep : 0 < step) :
    ∀ x ∈ arange a b step, a ≤ x ∧ x < b := by
  intro x hx
  rw [arange] at hx
  obtain ⟨i, hi, rfl⟩ := List.mem_map.mp hx
  have hi' : (i : ℤ) < ⌈(b - a) / step⌉ := Int.lt_toNat.mp (List.mem_range.mp hi)
  have h1 : ((i : ℤ) : ℝ) + 1 ≤ ((⌈(b - a) / step⌉ : ℤ) : ℝ) := by
    exact_mod_cast Int.add_one_le_iff.mpr hi'
  have h2 : ((⌈(b - a) / step⌉ : ℤ) : ℝ) < (b - a) / step + 1 :=
    Int.ceil_lt_add_one ((b - a) / step)
  have h3 : (i : ℝ) < (b - a) / step := by
    push_cast at h1
    linarith
  constructor
  · have hnn : (0 : ℝ) ≤ (i : ℝ) * step :=
      mul_nonneg (Nat.cast_nonneg i) (le_of_lt hstep)
    linarith
  · have h4 : (i : ℝ) * step < ((b - a) / step) * step :=
      mul_lt_mul_of_pos_right h3 hstep
    rw [div_mul_cancel₀ _ (ne_of_gt hstep)] at h4
    linarith

/-- The angles of `arange` are strictly increasing when the step is
positive. -/
lemma arange_pairwise_lt (a b step : ℝ) (hstep : 0 < step) :
    (arange a b step).Pairwise (· < ·) := by
  rw [arange]
  refine List.Pairwise.map _ ?_ (List.pairwise_lt_range _)
  intro i j hij
  have : (i : ℝ) < (j : ℝ) := by exact_mod_cast hij
  have := mul_lt_mul_of_pos_right this hstep
  linarith

/-- The number of angles swept from `-90` to `90` with step `1` is
`180`. -/
lemma arange_neg90_90_length : (arange (-90) 90 1).length = 180 := by
  rw [arange, List.length_map, List.length_range]
  have : ((90 : ℝ) - (-90)) / 1 = ((180 : ℤ) : ℝ) := by norm_num
  rw [this, Int.ceil_intCast]
  rfl

/-- C1 witness: on `c1state` a reading at angle `0` picks the nearer of
the two in-beam points and reports `(3, 0)`. -/
theorem c1_read_witness :
    read c1state 0 =
      (((3 : ℝ), (0 : ℝ)),
        { c1state with detected_point := some (3, 0),
                       measured_point := some (3, 0) }) := by
  have hbeam : into_beam c1state 0 = [(5, 0), (3, 0)] := by
    rw [into_beam]
    show List.filter _ [((5 : ℝ), (0 : ℝ)), (3, 0)] = [(5, 0), (3, 0)]
    rw [List.filter_cons, List.filter_cons]
    norm_num [c1state, deg2rad]
  have hne : into_beam c1state 0 ≠ [] := by rw [hbeam]; simp
  have h := (c1_read_beam_min_clamp c1state 0).2.2 hne
  have hmin : pyMin (into_beam c1state 0) = ((3 : ℝ), (0 : ℝ)) := by
    rw [hbeam, pyMin, pyTupleMin_cons]
    norm_num [pyTupleMin]
  rw [h.2.2, hmin]
  have hrange : ¬((3 : ℝ) > c1state.range) := by norm_num [c1state]
  have hdeg : rad2deg 0 = 0 := by simp [rad2deg]
  simp [hrange, hdeg]

/-- C3: `scan` clamps the step to a minimum of `1` (warning exactly when
the requested step is smaller), reads once per angle of the arithmetic
sweep `angle_from, angle_from + step, ...` — each swept angle lies in
`[angle_from, angle_to)` and the angles are strictly increasing — leaves
the stored orientation equal to its pre-scan value, and
`scan (-90) 90 1` produces exactly `180` readings. -/
theorem c3_scan_clamp_sweep_restore (s : SensorState)
    (angle_from angle_to step : ℝ) :
    (scan s angle_from angle_to step).1 =
      (arange angle_from angle_to (if step < 1 then 1 else step)).map
        (fun a => (read s a).1) ∧
    ((scan s angle_from angle_to step).2.1).orientation = s.orientation ∧
    ((scan s angle_from angle_to step).2.2 = true ↔ step < 1) ∧
    (arange angle_from angle_to
        (if step < 1 then 1 else step)).Pairwise (· < ·) ∧
    (∀ x ∈ arange angle_from angle_to (if step < 1 then 1 else step),
        angle_from ≤ x ∧ x < angle_to) ∧
    (scan s (-90) 90 1).1.length = 180 := by
  have hpos : ∀ st : ℝ, (0 : ℝ) < (if st < 1 then 1 else st) := by
    intro st
    by_cases h : st < 1
    · simp [h]
    · simp [h]; linarith [not_lt.mp h]
  have hloop := scan_loop_spec
    (arange angle_from angle_to (if step < 1 then 1 else step)) [] s s
    rfl rfl rfl rfl
  refine ⟨?_, ?_, ?_, arange_pairwise_lt _ _ _ (hpos step),
    arange_mem_bounds _ _ _ (hpos step), ?_⟩
  · rw [scan]
    simpa using hloop.1
  · rw [scan]
  · rw [scan]
    by_cases h : step < 1 <;> simp [h]
  · have hone : ¬((1 : ℝ) < 1) := lt_irrefl 1
    have hl1 := scan_loop_spec (arange (-90) 90 1) [] s s rfl rfl rfl rfl
    have hmeas : (scan s (-90) 90 1).1 =
        (arange (-90) 90 1).map (fun a => (read s a).1) := by
      rw [scan]
      simp only [hone, if_false]
      simpa using hl1.1
    rw [hmeas, List.length_map, arange_neg90_90_length]

/-- C3 witness: scanning `c1state` from `-90` to `90` with the
sub-minimum step `1/2` warns and restores the orientation `0`, and with
step `1` produces `180` readings. -/
theorem c3_scan_witness :
    ((scan c1state (-90) 90 (1 / 2)).2.1).orientation = 0 ∧
    (scan c1state (-90) 90 (1 / 2)).2.2 = true ∧
    (scan c1state (-90) 90 1).1.length = 180 := by
  have h := c3_scan_clamp_sweep_restore c1state (-90) 90 (1 / 2)
  refine ⟨?_, h.2.2.1.mpr (by norm_num), h.2.2.2.2.2⟩
  rw [h.2.1]
  simp [c1state]

/-- Rebuilding the point of view stores exactly the box-filtered
environment as the surroundings. -/
lemma pov_surroundings_eq (t : SensorState) :
    (sensor_point_of_view t).surroundings =
      box_filter t.env_points t.position t.range := rfl

/-- The point-of-view rebuild keeps the environment points. -/
lemma pov_env_points (t : SensorState) :
    (sensor_point_of_view t).env_points = t.env_points := rfl

/-- The point-of-view rebuild leaves the environment, position, range
and orientation untouched. -/
lemma pov_fields (t : SensorState) :
    (sensor_point_of_view t).env_points = t.env_points ∧
    (sensor_point_of_view t).position = t.position ∧
    (sensor_point_of_view t).range = t.range ∧
    (sensor_point_of_view t).orientation = t.orientation :=
  ⟨rfl, rfl, rfl, rfl⟩

/-- Membership in the box filter unfolds to membership in the
environment plus the inclusive box bounds. -/
lemma mem_box_filter (env : List (ℝ × ℝ)) (pos : ℝ × ℝ) (range : ℝ)
    (q : ℝ × ℝ) :
    q ∈ box_filter env pos range ↔ q ∈ env ∧ inBox pos range q := by
  simp [box_filter, inBox, List.mem_filter]

/-- The environment points after `load_env`. -/
lemma load_env_env_points (s : SensorState) (venv : List (List (ℝ × ℝ))) :
    (load_env s venv).env_points =
      (if s.env_points = [] then s.env_points ++ venv.flatten
        else s.env_points) := by
  by_cases h : s.env_points = [] <;> simp [load_env, h, pov_env_points]

/-- Rotation rebuilds the surroundings, but from the unchanged position,
so they coincide with a plain point-of-view rebuild of the original
state (for either value of the `spov` flag, since `rotate` internally
calls `traslate` with its rebuilding default). -/
lemma sensor_rotate_surroundings (s : SensorState) (alpha : ℝ)
    (rad spov : Bool) :
    (sensor_rotate s alpha rad spov).surroundings =
      (sensor_point_of_view s).surroundings := by
  cases spov <;> rfl

/-- C8: after each operation that rebuilds the point of view
(`load_env`, `traslate`, `place`, `rotate`), the surroundings are exactly
the loaded environment points inside the inclusive box
`[x - range, x + range] x [y - range, y + range]` around the sensor's
(new) position; the box depends only on position and range, so a pure
rotation keeps the sensor's position and leaves an already-built
surroundings list unchanged. -/
theorem c8_surroundings_box (s : SensorState) (venv : List (List (ℝ × ℝ)))
    (p pos : ℝ × ℝ) (alpha ang : ℝ) (rad rad' spov : Bool) :
    (∀ q, q ∈ (load_env s venv).surroundings ↔
        q ∈ (load_env s venv).env_points ∧ inBox s.position s.range q) ∧
    (∀ q, q ∈ (traslate s p true).surroundings ↔
        q ∈ s.env_points ∧ inBox p s.range q) ∧
    (∀ q, q ∈ (place s pos ang rad').surroundings ↔
        q ∈ s.env_points ∧ inBox pos s.range q) ∧
    (∀ q, q ∈ (sensor_rotate s alpha rad spov).surroundings ↔
        q ∈ s.env_points ∧ inBox s.position s.range q) ∧
    (sensor_rotate s alpha rad spov).position = s.position ∧
    (s.surroundings = (sensor_point_of_view s).surroundings →
      (sensor_rotate s alpha rad spov).surroundings = s.surroundings) := by
  refine ⟨?_, ?_, ?_, ?_, ?_, ?_⟩
  · intro q
    by_cases h : s.env_points = [] <;>
      simp [load_env, h, pov_surroundings_eq, mem_box_filter, pov_env_points]
  · intro q
    exact mem_box_filter s.env_points p s.range q
  · intro q
    exact mem_box_filter s.env_points pos s.range q
  · intro q
    rw [sensor_rotate_surroundings, pov_surroundings_eq]
    exact mem_box_filter s.env_points s.position s.range q
  · cases spov <;> rfl
  · intro h
    rw [sensor_rotate_surroundings, ← h]

/-- C8 witness: rotating the pre-built `c8state` by `90` degrees leaves
its surroundings `[(1, 1)]` unchanged and its position at the origin. -/
theorem c8_surroundings_witness :
    (sensor_rotate c8state 90 false true).surroundings = [((1 : ℝ), (1 : ℝ))] ∧
    (sensor_rotate c8state 90 false true).position = ((0 : ℝ), (0 : ℝ)) := by
  have h := c8_surroundings_box c8state [] (0, 0) (0, 0) 90 0 false false true
  have hpov : c8state.surroundings = (sensor_point_of_view c8state).surroundings := by
    rw [pov_surroundings_eq]
    show [((1 : ℝ), (1 : ℝ))] =
      box_filter [(1, 1), (10, 10)] ((0 : ℝ), (0 : ℝ)) 2
    rw [box_filter, List.filter_cons, List.filter_cons]
    norm_num
  refine ⟨?_, ?_⟩
  · rw [h.2.2.2.2.2 hpov]
    rfl
  · rw [h.2.2.2.2.1]
    rfl

/-- C7: the code keeps the previously loaded environment — `load_env`
only stores points when `env_points` is still empty, contradicting its
own docstring ("Every time this method is called previous loaded points
are lost").  Loading `[(1,1)]` and then reloading with `[(2,2)]` leaves
`env_points = [(1,1)]`. -/
theorem c7_load_env_reload_ignored :
    (load_env (load_env freshSensor [[(1, 1)]]) [[(2, 2)]]).env_points
      = [((1 : ℝ), (1 : ℝ))] ∧
    [((1 : ℝ), (1 : ℝ))] ≠ [((2 : ℝ), (2 : ℝ))] := by
  have h1 : (load_env freshSensor [[(1, 1)]]).env_points = [(1, 1)] := by
    rw [load_env_env_points]
    simp [freshSensor]
  constructor
  · rw [load_env_env_points, h1]
    simp
  · intro h
    have h3 : ((1 : ℝ), (1 : ℝ)) = ((2 : ℝ), (2 : ℝ)) := by
      injection h
    have h4 : (1 : ℝ) = 2 := congrArg Prod.fst h3
    norm_num at h4

/-- C10: `turn` changes only the orientation and `move` only the
position; each appends exactly one path entry carrying the post-movement
pose and a sequence number one larger than before, leaving all earlier
entries in place. -/
theorem c10_turn_move_effects (v : VehicleState) (angle distance : ℝ) :
    (turn v angle).position = v.position ∧
    (turn v angle).orientation = v.orientation + deg2rad angle ∧
    (move v distance).orientation = v.orientation ∧
    (turn v angle).seq_counter = v.seq_counter + 1 ∧
    (move v distance).seq_counter = v.seq_counter + 1 ∧
    (turn v angle).path = v.path ++
      [(v.position.1, v.position.2, v.orientation + deg2rad angle,
        v.seq_counter + 1)] ∧
    (move v distance).path = v.path ++
      [((move v distance).position.1, (move v distance).position.2,
        v.orientation, v.seq_counter + 1)] :=
  ⟨rfl, rfl, rfl, rfl, rfl, rfl, rfl⟩

/-- The buggy `SensorDevice.update_placement` leaves the sensor oriented at
`mnt_orient + deg2rad chassis_rot` — with the degree conversion applied
to whatever it receives. -/
lemma update_placement_orientation (d : DevState) (p : ℝ × ℝ) (r : ℝ) :
    (update_placement d p r).orientation = d.mnt_orient + deg2rad r := rfl

/-- The `VirtualSensor` variant uses the carrier rotation directly, so it
satisfies the claimed formula `mountOrientation + carrierRotation`. -/
lemma update_placement_virtual_orientation (d : DevState) (p : ℝ × ℝ)
    (r : ℝ) :
    (update_placement_virtual d p r).orientation = d.mnt_orient + r := rfl

/-- C4 fails on the code: after `turn 90` the vehicle's orientation is
`deg2rad 90` radians, but the mounted sensor ends up oriented at
`deg2rad (deg2rad 90)` — `SensorDevice.update_placement` converts the
already-radian carrier rotation from degrees again — which differs from
the claimed `mountOrientation + carrierRotation = deg2rad 90`. -/
theorem c4_sensor_placement_units_bug :
    ((turn c4vehicle 90).sensors.map (fun nd => nd.2.orientation))
        = [deg2rad (deg2rad 90)] ∧
    c4dev.mnt_orient + (turn c4vehicle 90).orientation = deg2rad 90 ∧
    deg2rad (deg2rad 90) ≠ deg2rad 90 := by
  refine ⟨?_, ?_, ?_⟩
  · show [c4dev.mnt_orient + deg2rad (c4vehicle.orientation + deg2rad 90)]
        = [deg2rad (deg2rad 90)]
    norm_num [c4dev, c4vehicle]
  · show c4dev.mnt_orient + (c4vehicle.orientation + deg2rad 90) = deg2rad 90
    norm_num [c4dev, c4vehicle]
  · have hpi : Real.pi < 180 := lt_trans Real.pi_lt_d2 (by norm_num)
    have hpos := Real.pi_pos
    simp only [deg2rad]
    intro h
    nlinarith [h, hpi, hpos]

/-- C9: `Vehicle.ping` returns the registered sensor's reading and
`None` (after an error report) for an unregistered name, while
`Vehicle.scan` returns the empty dict for an unregistered name (other
than the `"all"` broadcast sentinel); neither raises. -/
theorem c9_ping_scan_unknown_sensor (v : VehicleState) (name : String)
    (angle a b st : ℝ) :
    (∀ d : DevState, v.sensors.lookup name = some d →
        vehicle_ping v name angle = some ((read d.toSensorState angle).1)) ∧
    (v.sensors.lookup name = none →
        vehicle_ping v name angle = none ∧
        (name ≠ "all" → vehicle_scan v name a b st = [])) := by
  constructor
  · intro d hd
    simp [vehicle_ping, hd, sensor_ping]
  · intro hn
    refine ⟨by simp [vehicle_ping, hn], fun hna => ?_⟩
    simp [vehicle_scan, hna, hn]

/-- C9 witness: on the one-sensor vehicle, pinging `"S"` returns its
reading, while pinging or scanning the unknown `"X"` returns `none` and
the empty dict. -/
theorem c9_ping_scan_witness :
    vehicle_ping c4vehicle "S" 0 = some ((read c4dev.toSensorState 0).1) ∧
    vehicle_ping c4vehicle "X" 0 = none ∧
    vehicle_scan c4vehicle "X" (-90) 90 1 = [] := by
  have hS : c4vehicle.sensors.lookup "S" = some c4dev := by
    simp [c4vehicle]
  have hX : c4vehicle.sensors.lookup "X" = none := by
    simp [c4vehicle]
  have h2 := c9_ping_scan_unknown_sensor c4vehicle "X" 0 (-90) 90 1
  have h3 := (h2.2 hX).2 (by simp)
  exact ⟨(c9_ping_scan_unknown_sensor c4vehicle "S" 0 0 0 0).1 c4dev hS,
    (h2.2 hX).1, h3⟩

/-- C6: the out-of-bounds check of `mount_sensor` rejects with `False`
and no mutation; but the in-bounds path crashes — `SensorDevice.__init__`
forwards `(name, beam, range)` to a `Sensor.__init__` whose signature is
`(beam, range, name)`, so `np.deg2rad` is applied to the name string and
raises `TypeError` before any registration; mounting can never return
success. -/
theorem c6_mount_sensor_bounds_and_crash :
    (∀ (v : VehicleState) (name : String) (beam rng : ℝ)
        (mnt_pt : ℝ × ℝ) (mnt_orient : ℝ),
        (mnt_pt.1 > v.length / 2 ∨ mnt_pt.1 < -(v.length / 2) ∨
         mnt_pt.2 > v.width / 2 ∨ mnt_pt.2 < -(v.width / 2)) →
        mount_sensor v name beam rng mnt_pt mnt_orient =
          Except.ok (v, false)) ∧
    mount_sensor c6vehicle "S_Front" 40 60 (10, 0) 0 =
      Except.error ("TypeError: deg2rad of str") := by
  constructor
  · intro v name beam rng mnt_pt mnt_orient h
    by_cases hx : mnt_pt.1 > v.length / 2 ∨ mnt_pt.1 < -(v.length / 2)
    · rw [mount_sensor, if_pos hx]
    · have hy : mnt_pt.2 > v.width / 2 ∨ mnt_pt.2 < -(v.width / 2) := by
        rcases h with h | h | h | h
        · exact absurd (Or.inl h) hx
        · exact absurd (Or.inr h) hx
        · exact Or.inl h
        · exact Or.inr h
      rw [mount_sensor, if_neg hx, if_pos hy]
  · rw [mount_sensor, if_neg (by norm_num [c6vehicle]),
      if_neg (by norm_num [c6vehicle])]
    rfl

/-- C6 witness: a clearly out-of-bounds mount point is rejected with
`False` and the vehicle unchanged. -/
theorem c6_mount_sensor_witness :
    mount_sensor c6vehicle "S_Out" 40 60 (100, 0) 0 =
      Except.ok (c6vehicle, false) :=
  c6_mount_sensor_bounds_and_crash.1 c6vehicle "S_Out" 40 60 (100, 0) 0
    (Or.inl (by norm_num [c6vehicle]))

/-- C5 fails on the code: with the sensor frame `(10, 0, pi/2)` and the
identity vehicle frame, a reading of `(5, 0 degrees)` is mapped to the
world point `(5, 0)` — `scan_to_map` transforms the raw rectangular
readings by the vehicle frame only, discarding the computed sensor-frame
stage — whereas the documented sensor-then-vehicle composition yields
`(10, 5)`. -/
theorem c5_scan_to_map_drops_sensor_frame :
    scan_to_map_one (0, 0, 0, true) (10, 0, Real.pi / 2, true)
        [(5, 0)] false = [((5 : ℝ), (0 : ℝ))] ∧
    scan_to_map_spec_one (0, 0, 0, true) (10, 0, Real.pi / 2, true)
        [(5, 0)] false = [((10 : ℝ), (5 : ℝ))] ∧
    ([((5 : ℝ), (0 : ℝ))] : List (ℝ × ℝ)) ≠ [((10 : ℝ), (5 : ℝ))] := by
  refine ⟨?_, ?_, by norm_num [Prod.ext_iff]⟩
  · simp [scan_to_map_one, to_rect, to_globalpos, pol2cart, deg2rad,
      localpos_to_globalpos]
  · simp [scan_to_map_spec_one, to_rect, to_globalpos, pol2cart, deg2rad,
      localpos_to_globalpos]

end Flatland
